import Mathlib

/-!
Verification development for the rinha-de-backend payment-intermediation
pipeline (Rust sources under src/). Each component that the verified
properties touch is shallowly embedded: pure control flow is translated
to Lean functions, I/O outcomes (HTTP dispatch results, enqueue results,
database insert results, health probe outcomes) are passed in explicitly
as values, and machine integers are modelled as Nat with explicit
reduction modulo 2 ^ 64 where Rust u64 arithmetic can wrap or saturate.
Amount values carried by f64 fields are modelled as rationals: every
finite f64 value is a rational, and none of the verified properties
depends on f64 rounding of arithmetic.

Source map:
  * ProcessorType, choose_processor, process_payment, process_message:
    payment-worker/src/main.rs (PaymentProcessor, PaymentWorker).
  * get_best_processor, check_processor_health: health-checker/src/health_monitor.rs.
  * record: payment-worker/src/main.rs save_processed_payment
    (INSERT ... ON CONFLICT (correlation_id) DO NOTHING against the
    processed_payments table, whose unique constraint on correlation_id
    is implied by the ON CONFLICT target).
  * record_plain: payment_worker_improved.rs save_processed_payment
    (plain INSERT against the same uniqueness-constrained table).
  * create_payment: api/src/main.rs; create_payment_improved: api_main_improved.rs.
  * ProcessorStats.add_payment, get_stats: src/main.rs (in-process counters).
-/

namespace Rinha

/-- Closed sum of the two external processors, from the ProcessorType
enum in payment-worker/src/main.rs and the Processor enum in
health-checker/src/health_monitor.rs. -/
inductive ProcessorType where
  | default
  | fallback
  deriving DecidableEq, Repr

/-- Failover target used by PaymentProcessor.process_payment in
payment-worker/src/main.rs (lines 227-230): the other processor. -/
def ProcessorType.other : ProcessorType → ProcessorType
  | .default => .fallback
  | .fallback => .default

/-- Health verdict stored by the health checker, from ProcessorHealthStatus
in health-checker/src/health_monitor.rs. min_response_time is a u64. -/
structure ProcessorHealthStatus where
  failing : Bool
  min_response_time : Nat
  deriving DecidableEq, Repr

/-- Wire body of GET /payments/service-health, from ServiceHealthResponse
in health-checker/src/health_monitor.rs. -/
structure ServiceHealthResponse where
  failing : Bool
  min_response_time : Nat
  deriving DecidableEq, Repr

/-- Selector from HealthMonitor.get_best_processor in
health-checker/src/health_monitor.rs lines 247-288, as a function of the
two optional stored verdicts (default first, fallback second). -/
def get_best_processor :
    Option ProcessorHealthStatus → Option ProcessorHealthStatus → ProcessorType
  | some d, some f =>
    if !d.failing && !f.failing then
      if f.min_response_time * 2 < d.min_response_time then .fallback else .default
    else if !d.failing then .default
    else if !f.failing then .fallback
    else if f.min_response_time < d.min_response_time then .fallback else .default
  | some d, none => if !d.failing then .default else .fallback
  | none, some f => if !f.failing then .fallback else .default
  | none, none => .default

/-- Outcome of the HTTP GET performed by a health probe: either the
request itself failed (connection error or timeout), or a response came
back with a status code and, when the body parsed as
ServiceHealthResponse, the parsed body. -/
inductive ProbeOutcome where
  | network_error
  | response (status_code : Nat) (parsed : Option ServiceHealthResponse)
  deriving DecidableEq, Repr

/-- Storage writes performed by one call to check_processor_health:
whether the rate-limit token was set, and the verdict written to
the health store, if any. -/
structure ProbeEffects where
  rate_limit_set : Bool
  verdict : Option ProcessorHealthStatus
  deriving DecidableEq, Repr

/-- Default of the FAILED_RESPONSE_TIME_VALUE configuration key, from
health-checker/src/config.rs lines 54-56: u64::MAX. -/
def failed_response_time_default : Nat := 2 ^ 64 - 1

/-- Success test used by the HTTP client wrappers in
health-checker/src/http_client.rs: status in the 2xx range. -/
def is_success (status_code : Nat) : Bool :=
  decide (200 ≤ status_code) && decide (status_code < 300)

/-- Probe logic of HealthMonitor.check_processor_health in
health-checker/src/health_monitor.rs lines 130-218. rate_limit_free is
the result of storage.check_rate_limit; the HTTP call and the storage
writes are reflected in the returned ProbeEffects. -/
def check_processor_health (rate_limit_free : Bool) (outcome : ProbeOutcome)
    (failed_response_time_value : Nat) : ProbeEffects :=
  if !rate_limit_free then ⟨false, none⟩
  else
    match outcome with
    | .network_error => ⟨true, some ⟨true, failed_response_time_value⟩⟩
    | .response sc parsed =>
      if is_success sc then
        match parsed with
        | some h => ⟨true, some ⟨h.failing, h.min_response_time⟩⟩
        | none => ⟨true, some ⟨true, failed_response_time_value⟩⟩
      else ⟨true, none⟩

/-- Unit of work crossing the queue, from PaymentMessage in
api/src/main.rs and payment-worker/src/main.rs. The f64 amount is
modelled as a rational; requested_at is an abstract timestamp. -/
structure PaymentMessage where
  correlation_id : String
  amount : ℚ
  requested_at : Nat
  deriving DecidableEq, Repr

/-- Body POSTed to a processor, from PaymentRequest in
payment-worker/src/main.rs lines 19-26. -/
structure PaymentRequestWire where
  correlation_id : String
  amount : ℚ
  requested_at : Nat
  deriving DecidableEq, Repr

/-- Construction of the dispatch body from the queue message, from
process_payment_with_processor in payment-worker/src/main.rs lines
177-181: every field is copied from the message unchanged. -/
def to_payment_request (m : PaymentMessage) : PaymentRequestWire :=
  ⟨m.correlation_id, m.amount, m.requested_at⟩

/-- Row of the processed_payments table. -/
structure LedgerRow where
  correlation_id : String
  amount : ℚ
  requested_at : Nat
  processor : String
  deriving DecidableEq, Repr

/-- Test for an existing row with the given correlation_id, standing for
the unique constraint on processed_payments.correlation_id. -/
def hasRow (db : List LedgerRow) (cid : String) : Bool :=
  db.any (fun r => r.correlation_id == cid)

/-- Ledger write of PaymentWorker.save_processed_payment in
payment-worker/src/main.rs lines 268-288: INSERT ... ON CONFLICT
(correlation_id) DO NOTHING. A conflicting insert leaves the table
unchanged and is not an error. -/
def record (db : List LedgerRow) (m : PaymentMessage) (proc : String) :
    List LedgerRow :=
  if hasRow db m.correlation_id then db
  else db ++ [⟨m.correlation_id, m.amount, m.requested_at, proc⟩]

/-- Ledger write of save_processed_payment in payment_worker_improved.rs
lines 92-118: a plain INSERT with no ON CONFLICT clause. Against the
uniqueness-constrained table a duplicate correlation_id makes the
statement fail; the table is left unchanged in that case. -/
def record_plain (db : List LedgerRow) (m : PaymentMessage) (proc : String) :
    Except Unit (List LedgerRow) :=
  if hasRow db m.correlation_id then .error ()
  else .ok (db ++ [⟨m.correlation_id, m.amount, m.requested_at, proc⟩])

/-- Environment of one worker delivery: the health-cache verdicts at
selection time, whether a POST to each processor would return 2xx, and
whether the Ledger insert would succeed. -/
structure WorkerEnv where
  default_healthy : Bool
  fallback_healthy : Bool
  default_success : Bool
  fallback_success : Bool
  save_ok : Bool
  deriving DecidableEq, Repr

/-- Selection strategy of PaymentProcessor.choose_processor in
payment-worker/src/main.rs lines 147-165: default if healthy, else
fallback if healthy, else default. -/
def choose_processor (e : WorkerEnv) : ProcessorType :=
  if e.default_healthy then .default
  else if e.fallback_healthy then .fallback
  else .default

/-- Whether a dispatch to the given processor returns 2xx in this
delivery, abstracting process_payment_with_processor. -/
def dispatch_success (e : WorkerEnv) : ProcessorType → Bool
  | .default => e.default_success
  | .fallback => e.fallback_success

/-- Result of PaymentProcessor.process_payment: the processor that
returned 2xx, if any, and the processors dispatched to, in order. -/
structure DispatchResult where
  winner : Option ProcessorType
  attempts : List ProcessorType
  deriving DecidableEq, Repr

/-- Control flow of PaymentProcessor.process_payment in
payment-worker/src/main.rs lines 200-248: try the chosen processor; on
failure try the other processor once; if that also fails, report failure.
The failure-count bookkeeping on the health cache is not modelled. -/
def process_payment (e : WorkerEnv) : DispatchResult :=
  if dispatch_success e (choose_processor e) then
    ⟨some (choose_processor e), [choose_processor e]⟩
  else if dispatch_success e (choose_processor e).other then
    ⟨some (choose_processor e).other,
      [choose_processor e, (choose_processor e).other]⟩
  else
    ⟨none, [choose_processor e, (choose_processor e).other]⟩

/-- Observable actions of one worker iteration on one received message. -/
structure WorkerStepResult where
  dispatched : Option ProcessorType
  attempts : List ProcessorType
  save_attempted : Bool
  save_succeeded : Bool
  archived : Bool
  deriving DecidableEq, Repr

/-- Per-message handling of PaymentWorker.process_payments in
payment-worker/src/main.rs lines 309-327: on dispatch success, attempt
the Ledger insert (an insert error is logged, not propagated) and
archive the message; on dispatch failure, archive the message as well
(the source comments this as avoiding infinite retry). -/
def process_message (e : WorkerEnv) : WorkerStepResult :=
  match process_payment e with
  | ⟨some p, att⟩ => ⟨some p, att, true, e.save_ok, true⟩
  | ⟨none, att⟩ => ⟨none, att, false, false, true⟩

/-- Body of POST /payments after deserialization, from PaymentRequest in
api/src/main.rs lines 24-29: a UUID correlation id and an f64 amount,
with no further constraint. -/
structure ApiPaymentRequest where
  correlation_id : String
  amount : ℚ
  deriving DecidableEq, Repr

/-- Outcome of the queue send performed for a request. -/
inductive EnqueueOutcome where
  | ok
  | failed
  deriving DecidableEq, Repr

/-- Observable behaviour of the ingress handler on one request: the HTTP
status returned, the PaymentMessage built for the queue, and whether an
enqueue error was logged. -/
structure IngressEffect where
  status : Nat
  message : PaymentMessage
  enqueue_error_logged : Bool
  deriving DecidableEq, Repr

/-- Handler create_payment in api/src/main.rs lines 62-90: builds the
message with requested_at taken at ingress, spawns the enqueue as a
background task whose failure is only logged, and returns 202 Accepted
unconditionally and immediately. -/
def create_payment (req : ApiPaymentRequest) (now : Nat) (enq : EnqueueOutcome) :
    IngressEffect :=
  ⟨202, ⟨req.correlation_id, req.amount, now⟩,
    match enq with
    | .failed => true
    | .ok => false⟩

/-- Handler create_payment in api_main_improved.rs lines 27-63: awaits
the enqueue, returning a 200 JSON body on success and 500 on failure. -/
def create_payment_improved (req : ApiPaymentRequest) (enq : EnqueueOutcome) :
    Nat :=
  match enq with
  | .ok => 200
  | .failed => 500

/-- Size of the u64 value space. -/
def u64_size : Nat := 2 ^ 64

/-- Semantics of the Rust cast (x as u64) applied to an f64 value:
negative values (and NaN) go to 0, values at or above 2 ^ 64 saturate to
u64::MAX, and everything else is truncated toward zero. -/
def f64_as_u64 (q : ℚ) : Nat :=
  if q ≤ 0 then 0 else min q.floor.toNat (u64_size - 1)

/-- In-process counters of one processor, from ProcessorStats in
src/main.rs lines 34-37: two u64 atomics, the amount held as cents. -/
structure ProcessorStats where
  total_requests : Nat
  total_amount : Nat
  deriving DecidableEq, Repr

/-- ProcessorStats.add_payment in src/main.rs lines 47-51: fetch_add 1 on
total_requests and fetch_add of ((amount * 100.0) as u64) on
total_amount; u64 fetch_add wraps modulo 2 ^ 64. -/
def add_payment (s : ProcessorStats) (amount : ℚ) : ProcessorStats :=
  ⟨(s.total_requests + 1) % u64_size,
    (s.total_amount + f64_as_u64 (amount * 100)) % u64_size⟩

/-- ProcessorStats.get_stats in src/main.rs lines 53-57: the request
count and the accumulated cents divided by 100. -/
def get_stats (s : ProcessorStats) : Nat × ℚ :=
  (s.total_requests, (s.total_amount : ℚ) / 100)

/-- Helper: after a record of message m, the Ledger always holds a row
with the correlation_id of m. -/
theorem hasRow_record_self (db : List LedgerRow) (m : PaymentMessage) (p : String) :
    hasRow (record db m p) m.correlation_id = true := by
  unfold record
  by_cases h : hasRow db m.correlation_id
  · rw [if_pos h]; exact h
  · rw [if_neg h]
    simp [hasRow, List.any_append]

/-- Helper: a record against a Ledger that already holds the
correlation_id is a no-op. -/
theorem record_of_hasRow (db : List LedgerRow) (m : PaymentMessage) (q : String)
    (h : hasRow db m.correlation_id = true) : record db m q = db := by
  simp [record, h]

/-- Helper: a plain insert against a Ledger that already holds the
correlation_id is rejected by the unique constraint. -/
theorem record_plain_of_hasRow (db : List LedgerRow) (m : PaymentMessage)
    (q : String) (h : hasRow db m.correlation_id = true) :
    record_plain db m q = Except.error () := by
  simp [record_plain, h]

/-- Helper: record preserves distinctness of correlation ids. -/
theorem nodup_record (db : List LedgerRow) (m : PaymentMessage) (p : String)
    (h : (db.map LedgerRow.correlation_id).Nodup) :
    ((record db m p).map LedgerRow.correlation_id).Nodup := by
  unfold record
  by_cases hr : hasRow db m.correlation_id
  · simpa [hr]
  · have hmem : m.correlation_id ∉ db.map LedgerRow.correlation_id := by
      intro hc
      rcases List.mem_map.mp hc with ⟨r, hr1, hr2⟩
      simp [hasRow, List.any_eq_true] at hr
      exact hr r hr1 hr2
    simp [hr, List.nodup_append, h, hmem]

/-- Claim C1 counterexample: a delivery in which the dispatch fails at
both processors (non-2xx everywhere) is still archived by the worker
(payment-worker/src/main.rs line 325 archives in the error arm), so the
message is never redelivered, contrary to the claim that a
dispatch-failed message is not acked. -/
theorem claim_c1_counterexample :
    (process_message ⟨true, true, false, false, true⟩).dispatched = none ∧
    (process_message ⟨true, true, false, false, true⟩).archived = true := by
  decide

/-- Claim C1 (amended): the worker archives every received message,
whether the dispatch succeeded or failed at both processors; dispatch
failure never leaves the message for visibility-timeout redelivery. -/
theorem worker_archives_every_message (e : WorkerEnv) :
    (process_message e).archived = true := by
  rcases e with ⟨a, b, c, d, s⟩
  cases a <;> cases b <;> cases c <;> cases d <;> cases s <;> decide

/-- Claim C2 counterexample: the ingress handler of api/src/main.rs
returns 202 even when the enqueue fails (the enqueue runs in a spawned
background task whose error is only logged), so the response is not 500
on enqueue failure as claimed. -/
theorem claim_c2_counterexample :
    (create_payment ⟨"c2cid", 10⟩ 0 EnqueueOutcome.failed).status = 202 ∧
    (create_payment ⟨"c2cid", 10⟩ 0 EnqueueOutcome.failed).status ≠ 500 :=
  ⟨rfl, by decide⟩

/-- Claim C2 (amended): the ingress handler of api/src/main.rs returns
202 unconditionally for every well-formed request, regardless of the
enqueue outcome, which is only logged; the draft handler of
api_main_improved.rs awaits the enqueue and returns 200 on success and
500 on failure. -/
theorem ingress_status_behaviour (req : ApiPaymentRequest) (now : Nat)
    (enq : EnqueueOutcome) :
    (create_payment req now enq).status = 202 ∧
    create_payment_improved req EnqueueOutcome.ok = 200 ∧
    create_payment_improved req EnqueueOutcome.failed = 500 :=
  ⟨rfl, rfl, rfl⟩

/-- Claim C3: the selector get_best_processor follows the documented
case analysis: both present and healthy gives fallback exactly when its
min_response_time doubled is below that of default; both present with
only default healthy gives default; both present with only fallback
healthy gives fallback; both present and both failing gives the one
with the strictly smaller min_response_time; one verdict present gives
that processor when healthy and the other when failing; no verdicts
gives default. -/
theorem get_best_processor_spec (d f : ProcessorHealthStatus) :
    (d.failing = false → f.failing = false →
      get_best_processor (some d) (some f) =
        if f.min_response_time * 2 < d.min_response_time then ProcessorType.fallback
        else ProcessorType.default) ∧
    (d.failing = false → f.failing = true →
      get_best_processor (some d) (some f) = ProcessorType.default) ∧
    (d.failing = true → f.failing = false →
      get_best_processor (some d) (some f) = ProcessorType.fallback) ∧
    (d.failing = true → f.failing = true →
      f.min_response_time < d.min_response_time →
      get_best_processor (some d) (some f) = ProcessorType.fallback) ∧
    (d.failing = true → f.failing = true →
      d.min_response_time < f.min_response_time →
      get_best_processor (some d) (some f) = ProcessorType.default) ∧
    (get_best_processor (some d) none =
      if d.failing then ProcessorType.fallback else ProcessorType.default) ∧
    (get_best_processor none (some f) =
      if f.failing then ProcessorType.default else ProcessorType.fallback) ∧
    get_best_processor (none : Option ProcessorHealthStatus) none =
      ProcessorType.default := by
  refine ⟨?_, ?_, ?_, ?_, ?_, ?_, ?_, rfl⟩
  · intro hd hf; simp [get_best_processor, hd, hf]
  · intro hd hf; simp [get_best_processor, hd, hf]
  · intro hd hf; simp [get_best_processor, hd, hf]
  · intro hd hf h; simp [get_best_processor, hd, hf, h]
  · intro hd hf h
    have hn : ¬ f.min_response_time < d.min_response_time := by omega
    simp [get_best_processor, hd, hf, hn]
  · cases hd : d.failing <;> simp [get_best_processor, hd]
  · cases hf : f.failing <;> simp [get_best_processor, hf]

/-- Claim C3 witness: with default failing and fallback healthy, the
selector returns fallback. -/
theorem get_best_processor_spec_witness :
    get_best_processor (some ⟨true, 9999⟩) (some ⟨false, 250⟩) =
      ProcessorType.fallback :=
  (get_best_processor_spec ⟨true, 9999⟩ ⟨false, 250⟩).2.2.1 rfl rfl

/-- Claim C4: when the dispatch succeeded at some processor, the worker
attempts the Ledger insert and archives the message, and when the
insert fails the failure is only recorded, not propagated, so the
archive still happens. -/
theorem dispatched_message_always_archived (e : WorkerEnv) (p : ProcessorType)
    (h : (process_message e).dispatched = some p) :
    (process_message e).save_attempted = true ∧
    (process_message e).archived = true ∧
    (e.save_ok = false → (process_message e).save_succeeded = false) := by
  rcases e with ⟨a, b, c, d, s⟩
  revert h
  cases p <;> cases a <;> cases b <;> cases c <;> cases d <;> cases s <;> decide

/-- Claim C4 witness: a delivery that dispatches successfully to default
while the Ledger insert fails is still archived. -/
theorem dispatched_message_always_archived_witness :
    (process_message ⟨true, true, true, true, false⟩).archived = true :=
  (dispatched_message_always_archived ⟨true, true, true, true, false⟩
    ProcessorType.default (by decide)).2.1

/-- Claim C5: record is idempotent on correlation_id: a second record of
the same message, with any processor, leaves exactly the state written
by the first call; record preserves distinctness of correlation ids;
and the plain-INSERT draft of the same write is rejected by the unique
constraint on the second call. -/
theorem ledger_record_idempotent (db : List LedgerRow) (m : PaymentMessage)
    (p q : String) (h : (db.map LedgerRow.correlation_id).Nodup) :
    record (record db m p) m q = record db m p ∧
    ((record db m p).map LedgerRow.correlation_id).Nodup ∧
    record_plain (record db m p) m q = Except.error () :=
  ⟨record_of_hasRow _ m q (hasRow_record_self db m p),
    nodup_record db m p h,
    record_plain_of_hasRow _ m q (hasRow_record_self db m p)⟩

/-- Claim C5 witness: recording the same payment twice against the empty
Ledger leaves exactly the row written by the first call. -/
theorem ledger_record_idempotent_witness :
    record (record [] ⟨"w5cid", 1, 0⟩ "default") ⟨"w5cid", 1, 0⟩ "fallback" =
      record [] ⟨"w5cid", 1, 0⟩ "default" :=
  (ledger_record_idempotent [] ⟨"w5cid", 1, 0⟩ "default" "fallback" (by simp)).1

/-- Claim C6 counterexample: a probe that receives a non-2xx HTTP
response (here 500) writes no verdict at all
(health-checker/src/health_monitor.rs lines 207-215 only log), contrary
to the claim that it records failing=true with the sentinel response
time. -/
theorem claim_c6_counterexample :
    (check_processor_health true (ProbeOutcome.response 500 none)
        failed_response_time_default).verdict = none ∧
    (check_processor_health true (ProbeOutcome.response 500 none)
        failed_response_time_default).verdict ≠
      some ⟨true, failed_response_time_default⟩ :=
  ⟨rfl, by decide⟩

/-- Claim C6 (amended): a probe ending in a network failure writes
failing=true with the configured sentinel response time, and so does a
2xx response whose body fails to parse; a non-2xx response writes no
verdict, and a rate-limit-suppressed probe writes nothing and sets no
token. -/
theorem probe_failure_verdicts (v : Nat) (sc : Nat)
    (parsed : Option ServiceHealthResponse) (o : ProbeOutcome) :
    (check_processor_health true ProbeOutcome.network_error v).verdict =
      some ⟨true, v⟩ ∧
    (is_success sc = true →
      (check_processor_health true (ProbeOutcome.response sc none) v).verdict =
        some ⟨true, v⟩) ∧
    (is_success sc = false →
      (check_processor_health true (ProbeOutcome.response sc parsed) v).verdict =
        none) ∧
    (check_processor_health false o v).verdict = none := by
  refine ⟨rfl, ?_, ?_, rfl⟩
  · intro h; simp [check_processor_health, h]
  · intro h; simp [check_processor_health, h]

/-- Claim C6 witness: a 503 response leaves the health store untouched. -/
theorem probe_failure_verdicts_witness :
    (check_processor_health true (ProbeOutcome.response 503 none)
        failed_response_time_default).verdict = none :=
  (probe_failure_verdicts failed_response_time_default 503 none
      ProbeOutcome.network_error).2.2.1 (by decide)

/-- Claim C7 counterexample: a well-formed request with the strictly
negative amount -1/2 is accepted with 202 by the ingress handler, which
performs no amount validation, contrary to the claim that non-positive
amounts are rejected with 400. -/
theorem claim_c7_counterexample :
    ((-1 : ℚ) / 2 ≤ 0) ∧
    (create_payment ⟨"c7cid", (-1 : ℚ) / 2⟩ 3 EnqueueOutcome.ok).status = 202 ∧
    (create_payment ⟨"c7cid", (-1 : ℚ) / 2⟩ 3 EnqueueOutcome.ok).status ≠ 400 :=
  ⟨by norm_num, rfl, by decide⟩

/-- Claim C7 (amended): the ingress handler validates nothing about the
amount: every deserialized request, including one whose amount is
non-positive or not representable with two decimal digits, is answered
with 202 and its amount is forwarded unchanged into the queued message;
only bodies the JSON extractor cannot deserialize are rejected, by the
framework, before the handler runs. -/
theorem ingress_no_amount_validation (req : ApiPaymentRequest) (now : Nat)
    (enq : EnqueueOutcome)
    (h : req.amount ≤ 0 ∨ ¬ ∃ n : ℤ, req.amount = (n : ℚ) / 100) :
    (create_payment req now enq).status = 202 ∧
    (create_payment req now enq).message.amount = req.amount :=
  ⟨rfl, rfl⟩

/-- Claim C7 witness: the negative amount -1/2 is accepted with 202. -/
theorem ingress_no_amount_validation_witness :
    ((-1 : ℚ) / 2 ≤ 0 ∨ ¬ ∃ n : ℤ, ((-1 : ℚ) / 2) = (n : ℚ) / 100) ∧
    (create_payment ⟨"w7cid", (-1 : ℚ) / 2⟩ 0 EnqueueOutcome.ok).status = 202 :=
  ⟨Or.inl (by norm_num),
    (ingress_no_amount_validation ⟨"w7cid", (-1 : ℚ) / 2⟩ 0 EnqueueOutcome.ok
      (Or.inl (by norm_num))).1⟩

/-- Claim C8 counterexample: when the chosen default processor fails and
fallback succeeds, the worker dispatches the same delivery to both
processors in turn (payment-worker/src/main.rs lines 226-245), contrary
to the claim that at most one processor is dispatched to per delivery. -/
theorem claim_c8_counterexample :
    (process_message ⟨true, true, false, true, true⟩).attempts =
      [ProcessorType.default, ProcessorType.fallback] ∧
    1 < (process_message ⟨true, true, false, true, true⟩).attempts.length := by
  decide

/-- Claim C8 (amended): within one delivery the worker dispatches to the
chosen processor and, exactly when that dispatch fails, makes one
failover attempt to the other processor; it never dispatches more than
twice, and no further in-worker retry exists. -/
theorem worker_dispatch_attempts (e : WorkerEnv) :
    (process_message e).attempts =
      (if dispatch_success e (choose_processor e) then [choose_processor e]
       else [choose_processor e, (choose_processor e).other]) ∧
    (process_message e).attempts.length ≤ 2 := by
  rcases e with ⟨a, b, c, d, s⟩
  cases a <;> cases b <;> cases c <;> cases d <;> cases s <;> decide

/-- Claim C9 counterexample: the pipeline carries amounts as f64 values,
not integer cents: the amount 1/1024 (exactly representable in f64 and
not a whole number of cents) flows unchanged from the queue message
into the dispatch body and the Ledger row, and it is not of the form
n/100 for any integer n. -/
theorem claim_c9_counterexample :
    (to_payment_request ⟨"c9cid", 1 / 1024, 7⟩).amount = 1 / 1024 ∧
    (record [] ⟨"c9cid", 1 / 1024, 7⟩ "default").map LedgerRow.amount =
      [1 / 1024] ∧
    ¬ ∃ n : ℤ, (1 / 1024 : ℚ) = (n : ℚ) / 100 := by
  refine ⟨rfl, by simp [record, hasRow], ?_⟩
  rintro ⟨n, hn⟩
  have h1 : (n : ℚ) * 1024 = 100 := by
    field_simp at hn
    linarith
  have h2 : (n * 1024 : ℤ) = 100 := by exact_mod_cast h1
  omega

/-- Claim C9 (amended): amounts are carried as f64 values unchanged from
the queue message through the dispatch body into the Ledger row, with no
conversion to integer cents anywhere on that path; only the in-process
ProcessorStats counters of src/main.rs hold integer cents. -/
theorem amount_passes_through_unconverted (m : PaymentMessage)
    (db : List LedgerRow) (p : String)
    (h : hasRow db m.correlation_id = false) :
    (to_payment_request m).amount = m.amount ∧
    (record db m p).map LedgerRow.amount = db.map LedgerRow.amount ++ [m.amount] := by
  refine ⟨rfl, ?_⟩
  simp [record, h]

/-- Claim C9 witness: the non-cent amount 1/3 reaches the Ledger row
unchanged. -/
theorem amount_passes_through_unconverted_witness :
    hasRow [] ((⟨"w9cid", 1 / 3, 0⟩ : PaymentMessage)).correlation_id = false ∧
    (record [] ⟨"w9cid", 1 / 3, 0⟩ "default").map LedgerRow.amount =
      ([] : List LedgerRow).map LedgerRow.amount ++ [(1 : ℚ) / 3] :=
  ⟨rfl, (amount_passes_through_unconverted ⟨"w9cid", 1 / 3, 0⟩ [] "default" rfl).2⟩

/-- Claim C10: add_payment increments total_requests by one (modulo the
u64 space), adds zero cents for every negative amount, adds the
truncation toward zero of amount times 100 for non-negative amounts that
do not saturate, and get_stats divides the accumulated cents by 100. -/
theorem add_payment_spec (s : ProcessorStats) (a : ℚ) :
    (add_payment s a).total_requests = (s.total_requests + 1) % u64_size ∧
    (a < 0 → (add_payment s a).total_amount = s.total_amount % u64_size) ∧
    (0 ≤ a → (a * 100).floor.toNat < u64_size →
      (add_payment s a).total_amount =
        (s.total_amount + (a * 100).floor.toNat) % u64_size) ∧
    (get_stats s).2 = (s.total_amount : ℚ) / 100 := by
  refine ⟨rfl, ?_, ?_, rfl⟩
  · intro h
    have h0 : a * 100 ≤ 0 := by nlinarith
    simp [add_payment, f64_as_u64, h0]
  · intro h hlt
    by_cases h0 : a * 100 ≤ 0
    · have hz : a * 100 = 0 := le_antisymm h0 (by positivity)
      have hf0 : f64_as_u64 (a * 100) = 0 := by simp [f64_as_u64, h0]
      have hfz : (a * 100).floor = 0 := by rw [hz]; rfl
      simp [add_payment, hf0, hfz]
    · have hmin : min (a * 100).floor.toNat (u64_size - 1) = (a * 100).floor.toNat := by
        apply min_eq_left
        omega
      simp [add_payment, f64_as_u64, h0, hmin]

/-- Claim C10 witness: a negative amount contributes one request and zero
cents. -/
theorem add_payment_spec_witness :
    (-1 : ℚ) < 0 ∧
    (add_payment ⟨3, 250⟩ (-1)).total_amount = 250 % u64_size :=
  ⟨by norm_num, (add_payment_spec ⟨3, 250⟩ (-1)).2.1 (by norm_num)⟩

end Rinha
